import Mathlib

/-!
Verification of the forex-bot frontend orchestration and state-reconciliation
logic.  The JavaScript/JSX components are shallowly embedded as Lean
functions: each React component's state object becomes a structure, each
event handler becomes a function from the relevant remote response (already
classified as transport success or failure) and the pre-state to the
post-state together with the list of user-visible alerts and outgoing
requests it produces, in order.  JS numbers that the logic only compares
are modelled as Int; JS strings as Lean String, except the URL
normalisation, which works character by character and is modelled over
List Char.
-/

namespace ForexBot

/-- Transport failure of an axios call (network error, non-2xx, timeout);
the components only ever read its message string. -/
structure AxiosFailure where
  message : String
deriving DecidableEq, Repr

/-- Automation status record returned by GET /auto-trade/status, as held in
the AutoTradeStatusBar component's status state (config.js lines 14-19). -/
structure AutomationStatus where
  is_running : Bool
  last_trade_time : Option String
  trade_count : Int
  scan_interval : Int
deriving DecidableEq, Repr

/-- One scored scan opportunity, as consumed by the AutoTrade component
(AutoTrade.jsx: symbol, score, prediction, confidence, current_price). -/
structure Opportunity where
  symbol : String
  score : Int
  prediction : String
  confidence : Int
  current_price : Int
deriving DecidableEq, Repr

/-- An open position, as rendered by TradePanel (part_001 lines 58-125). -/
structure ActiveTrade where
  trade_id : String
  symbol : String
  direction : String
  entry_price : Int
  current_price : Int
  stop_loss : Int
  target_price : Int
  lot_size : Int
  score : Int
  floating_pnl : Int
  pnl_percentage : Int
  risk_amount : Int
  risk_percentage : Int
deriving DecidableEq, Repr

/-- Aggregate account statistics, as rendered by TradePanel. -/
structure AccountStats where
  balance : Int
  total_pnl : Int
  total_floating_pnl : Int
  max_risk_per_trade : Int
  total_daily_risk : Int
  win_rate : Int
  total_trades : Int
deriving DecidableEq, Repr

/-- A closed-trade history record, as consumed by TradeHistory.jsx. -/
structure HistoryRecord where
  trade_id : String
  symbol : String
  direction : String
  entry_price : Int
  exit_price : Int
  stop_loss : Int
  lot_size : Int
  score : Int
  pnl : Int
  status : String
  entry_time : String
  exit_time : String
deriving DecidableEq, Repr

/-- Body of GET /trades as used by the components: active trades, recent
history and the aggregate stats. -/
structure TradesResponse where
  active_trades : List ActiveTrade
  recent_history : List HistoryRecord
  stats : AccountStats
deriving DecidableEq, Repr

namespace TradeHistory

/-- The three history filters of TradeHistory.jsx (line 10: ALL, WIN, LOSS). -/
inductive Filter
  | ALL
  | WIN
  | LOSS
deriving DecidableEq, Repr

/-- State of the TradeHistory component (TradeHistory.jsx lines 8-10). -/
structure State where
  trades : List HistoryRecord
  loading : Bool
  filter : Filter
deriving DecidableEq, Repr

/-- The filter predicate applied to one record, translated from the body of
the trades.filter callback (TradeHistory.jsx lines 30-35). -/
def filterPred (f : Filter) (trade : HistoryRecord) : Bool :=
  if f = Filter.ALL then true
  else if f = Filter.WIN then decide (trade.pnl > 0)
  else if f = Filter.LOSS then decide (trade.pnl ≤ 0)
  else true

/-- The derived list filteredTrades (TradeHistory.jsx lines 30-35): a pure
filter over the already-fetched records. -/
def filteredTrades (s : State) : List HistoryRecord :=
  s.trades.filter (filterPred s.filter)

/-- A filter button click (TradeHistory.jsx lines 58, 64, 70) only stores the
new filter; it issues no request.  The second component of the result is the
list of network requests performed by the handler, which is empty. -/
def setFilterClick (f : Filter) (s : State) : State × List String :=
  ({ s with filter := f }, [])

/-- fetchHistory (TradeHistory.jsx lines 16-28) stores recent_history on
success and keeps the records unchanged on failure; loading ends false. -/
def fetchHistory (resp : Except AxiosFailure TradesResponse) (s : State) : State :=
  match resp with
  | .ok d => { s with trades := d.recent_history, loading := false }
  | .error _ => { s with loading := false }

end TradeHistory

namespace Config

/-- True for the two JS quote characters removed by the normalisation regex
of the config module (App.jsx appendix line 103: replace of single and
double quotes with the empty string, globally). -/
def isJsQuote (c : Char) : Bool :=
  c = '\'' || c = '"'

/-- Whitespace as stripped by the JS trim call, modelled by the common
ASCII whitespace characters. -/
def isJsSpace (c : Char) : Bool :=
  c = ' ' || c = '\t' || c = '\n' || c = '\r'

/-- Global removal of quote characters (App.jsx appendix line 103). -/
def removeQuotes (l : List Char) : List Char :=
  l.filter (fun c => !(isJsQuote c))

/-- Leading-whitespace part of the trim call. -/
def trimLeft (l : List Char) : List Char :=
  l.dropWhile isJsSpace

/-- Trailing-whitespace part of the trim call. -/
def trimRight (l : List Char) : List Char :=
  (l.reverse.dropWhile isJsSpace).reverse

/-- The trim call of App.jsx appendix line 103. -/
def jsTrim (l : List Char) : List Char :=
  trimRight (trimLeft l)

/-- Removal of one trailing slash: the replace with the regex matching a
slash at end of string (App.jsx appendix line 103). -/
def dropTrailingSlash (l : List Char) : List Char :=
  if l.getLast? = some '/' then l.dropLast else l

/-- The four characters of the enforced suffix. -/
def apiSuffix : List Char :=
  '/' :: 'a' :: 'p' :: 'i' :: []

/-- Resolution of the API_URL constant from the raw environment value
(App.jsx appendix lines 100-121): normalise by removing quotes, trimming
and dropping one trailing slash; if nonempty and not already ending in the
suffix, append the suffix; if empty, default to the suffix alone. -/
def resolveApiUrl (raw : List Char) : List Char :=
  let a := dropTrailingSlash (jsTrim (removeQuotes raw))
  let b := if a ≠ [] && !(apiSuffix.isSuffixOf a) then a ++ apiSuffix else a
  if b = [] then apiSuffix else b

/-- API_URL as computed at module load: an unset environment variable is
replaced by the empty string before normalisation (App.jsx appendix
line 100). -/
def API_URL (env : Option (List Char)) : List Char :=
  resolveApiUrl (env.getD [])

end Config

/-- Event-loop view of a periodic task: a tick is the interval callback
firing, a response is one outstanding request of that task resolving.
The three periodic tasks (status poll, ledger poll, automation cycle) are
each modelled by a step function on their outstanding-request count. -/
inductive PollEvent
  | tick
  | response
deriving DecidableEq, Repr

namespace StatusBar

/-- State of the AutoTradeStatusBar component (config.js appendix
lines 14-20): the cached status replica and the button-loading flag. -/
structure State where
  status : AutomationStatus
  loading : Bool
deriving DecidableEq, Repr

/-- User-visible alerts raised by the AutoTradeStatusBar handlers. -/
inductive Alert
  | startSuccess
  | startFailure (message : String)
  | stopSuccess (total_trades : Int)
  | stopFailure (message : String)
deriving DecidableEq, Repr

/-- Body of POST /auto-trade/start. -/
structure StartResponse where
  status : String
deriving DecidableEq, Repr

/-- Body of POST /auto-trade/stop. -/
structure StopResponse where
  status : String
  total_trades : Int
deriving DecidableEq, Repr

/-- fetchStatus (config.js appendix lines 31-38): on success the replica is
replaced wholesale by the response body; on failure the handler only logs,
leaving the replica unchanged. -/
def fetchStatus (resp : Except AxiosFailure AutomationStatus) (s : State) : State :=
  match resp with
  | .ok st => { s with status := st }
  | .error _ => s

/-- handleStart (config.js appendix lines 40-54).  The handler sets loading,
posts the start command, and on a response whose status is started or
already_running refreshes the replica via fetchStatus and alerts success;
on a transport failure it alerts the failure; on any other response status
the conditional is skipped and nothing is alerted.  The finally clause
always clears loading.  The fetchStatus response that the success branch
awaits is passed explicitly. -/
def handleStart (startResp : Except AxiosFailure StartResponse)
    (statusResp : Except AxiosFailure AutomationStatus) (s : State) :
    State × List Alert :=
  match startResp with
  | .ok r =>
    if r.status = "started" || r.status = "already_running" then
      ({ fetchStatus statusResp s with loading := false }, [Alert.startSuccess])
    else
      ({ s with loading := false }, [])
  | .error e =>
    ({ s with loading := false }, [Alert.startFailure e.message])

/-- handleStop (config.js appendix lines 56-70): on a response whose status
is stopped, the replica is refreshed via fetchStatus and the alert reports
the total_trades field of the response; on a transport failure the failure
is alerted; on any other response status nothing happens. -/
def handleStop (stopResp : Except AxiosFailure StopResponse)
    (statusResp : Except AxiosFailure AutomationStatus) (s : State) :
    State × List Alert :=
  match stopResp with
  | .ok r =>
    if r.status = "stopped" then
      ({ fetchStatus statusResp s with loading := false },
        [Alert.stopSuccess r.total_trades])
    else
      ({ s with loading := false }, [])
  | .error e =>
    ({ s with loading := false }, [Alert.stopFailure e.message])

/-- One step of the status poll: the body of fetchStatus issues its GET
unconditionally (config.js appendix line 33 has no in-flight guard), so a
tick always adds an outstanding request. -/
def pollStep (n : Nat) : PollEvent → Nat
  | .tick => n + 1
  | .response => n - 1

/-- Outstanding status-poll requests after a sequence of events. -/
def pollRun (events : List PollEvent) (n : Nat) : Nat :=
  events.foldl pollStep n

end StatusBar

namespace Dashboard

/-- Body of POST /scan as consumed by the Dashboard component: the status
discriminator, the filter reason, and the market snapshot fields the
component renders. -/
structure ScanResponse where
  status : String
  message : String
  sentiment : Int
  prediction : String
  confidence : Int
deriving DecidableEq, Repr

/-- Body of POST /close_trade. -/
structure CloseResponse where
  status : String
deriving DecidableEq, Repr

/-- Body of POST /reset. -/
structure ResetResponse where
  status : String
  message : String
deriving DecidableEq, Repr

/-- State of the Dashboard component (part_001 lines 166-172). -/
structure State where
  symbol : String
  data : Option ScanResponse
  loading : Bool
  isRunning : Bool
  activeTrades : List ActiveTrade
  stats : Option AccountStats
  runningBot : Bool
deriving DecidableEq, Repr

/-- Alerts raised and requests issued by the Dashboard handlers, in the
order the code performs them. -/
inductive Effect
  | alertFiltered (symbol : String) (message : String)
  | alertScanFailed (message : String)
  | alertCloseFailed (message : String)
  | alertResetMessage (message : String)
  | alertResetFailed (message : String)
  | requestGetTrades
  | requestPostScan (symbol : String)
  | requestPostReset
  | requestPostClose (trade_id : String)
deriving DecidableEq, Repr

/-- handleScan (part_001 lines 174-195): on success, a filtered status is
alerted with the reason, and the whole response body is stored as data in
either case; on transport failure the failure is alerted.  Neither branch
touches activeTrades or stats. -/
def handleScan (resp : Except AxiosFailure ScanResponse) (s : State) :
    State × List Effect :=
  match resp with
  | .ok d =>
    ({ s with data := some d, loading := false },
      if d.status = "filtered" then [Effect.alertFiltered s.symbol d.message] else [])
  | .error e =>
    ({ s with loading := false }, [Effect.alertScanFailed e.message])

/-- fetchTrades (part_001 lines 217-225): wholesale replacement of the
active-trade list and the stats from the response; failure only logs. -/
def fetchTrades (resp : Except AxiosFailure TradesResponse) (s : State) : State :=
  match resp with
  | .ok d => { s with activeTrades := d.active_trades, stats := some d.stats }
  | .error _ => s

/-- Issue phase of handleCloseTrade (part_001 line 229): the POST is sent;
the cached state is not touched. -/
def handleCloseTradeIssue (tradeId : String) (s : State) : State × List Effect :=
  (s, [Effect.requestPostClose tradeId])

/-- Completion phase of handleCloseTrade (part_001 lines 230-234): a
successful close triggers a ledger re-fetch; a failed close alerts.  The
cached state is not touched in either branch. -/
def handleCloseTradeDone (resp : Except AxiosFailure CloseResponse) (s : State) :
    State × List Effect :=
  match resp with
  | .ok _ => (s, [Effect.requestGetTrades])
  | .error e => (s, [Effect.alertCloseFailed e.message])

/-- handleReset (part_001 lines 237-252), as the ordered trace of effects it
performs: nothing without user confirmation; otherwise the POST /reset is
issued, then on a success response the server message is alerted verbatim,
then the ledger re-fetch and the fresh scan are requested, in that order;
any other response status does nothing further; a transport failure is
alerted. -/
def handleReset (confirmed : Bool) (resp : Except AxiosFailure ResetResponse)
    (s : State) : List Effect :=
  if !confirmed then []
  else
    Effect.requestPostReset ::
      (match resp with
        | .ok r =>
          if r.status = "success" then
            [Effect.alertResetMessage r.message, Effect.requestGetTrades,
              Effect.requestPostScan s.symbol]
          else []
        | .error e => [Effect.alertResetFailed e.message])

/-- One step of the Dashboard 5-second ledger poll (part_001 lines 258-260):
the body of fetchTrades issues its GET unconditionally, so a tick always
adds an outstanding request. -/
def ledgerPollStep (n : Nat) : PollEvent → Nat
  | .tick => n + 1
  | .response => n - 1

/-- Outstanding Dashboard ledger-poll requests after a sequence of events. -/
def ledgerPollRun (events : List PollEvent) (n : Nat) : Nat :=
  events.foldl ledgerPollStep n

end Dashboard

namespace AutoTrade

/-- Body of POST /run_bot as consumed by the AutoTrade component: the
status discriminator and the opportunity batch, which the code defends
against being absent. -/
structure RunBotResponse where
  status : String
  all_opportunities : Option (List Opportunity)
deriving DecidableEq, Repr

/-- State of the AutoTrade component (AutoTrade.jsx lines 11-17).  The
lastScan Date is modelled as a Nat timestamp. -/
structure State where
  autoMode : Bool
  scanning : Bool
  selectedOpportunity : Option Opportunity
  opportunities : List Opportunity
  lastScan : Option Nat
  activeTrades : List ActiveTrade
  stats : Option AccountStats
deriving DecidableEq, Repr

/-- Requests issued by the AutoTrade handlers. -/
inductive Effect
  | requestPostRunBot
  | requestGetTrades
  | requestPostClose (trade_id : String)
deriving DecidableEq, Repr

/-- Issue phase of startAutoTrade (AutoTrade.jsx lines 20-22): scanning is
set and the POST /run_bot is sent unconditionally; nothing in the body
checks autoMode or an in-flight flag first. -/
def startAutoTradeBegin (s : State) : State × List Effect :=
  ({ s with scanning := true }, [Effect.requestPostRunBot])

/-- Completion phase of startAutoTrade (AutoTrade.jsx lines 23-36), run when
the run_bot response arrives: on a success status the opportunity list is
replaced wholesale by the batch (defaulting to empty when absent), the
selection is set to the first element only when the batch is nonempty, the
last-scan time is set to now and a ledger re-fetch is requested; any other
status and a transport failure only clear scanning.  The handler never
reads autoMode. -/
def startAutoTradeDone (resp : Except AxiosFailure RunBotResponse) (now : Nat)
    (s : State) : State × List Effect :=
  match resp with
  | .ok r =>
    if r.status = "success" then
      let opps := r.all_opportunities.getD []
      let s1 := { s with opportunities := opps }
      let s2 := match opps with
        | [] => s1
        | o :: _ => { s1 with selectedOpportunity := some o }
      ({ s2 with lastScan := some now, scanning := false }, [Effect.requestGetTrades])
    else
      ({ s with scanning := false }, [])
  | .error _ =>
    ({ s with scanning := false }, [])

/-- fetchTrades (AutoTrade.jsx lines 39-47): wholesale replacement of the
active-trade list and the stats from the response; failure only logs. -/
def fetchTrades (resp : Except AxiosFailure TradesResponse) (s : State) : State :=
  match resp with
  | .ok d => { s with activeTrades := d.active_trades, stats := some d.stats }
  | .error _ => s

/-- Issue phase of handleCloseTrade (AutoTrade.jsx line 51): the POST is
sent; the cached state is not touched. -/
def handleCloseTradeIssue (tradeId : String) (s : State) : State × List Effect :=
  (s, [Effect.requestPostClose tradeId])

/-- Completion phase of handleCloseTrade (AutoTrade.jsx lines 52-55): a
successful close triggers a ledger re-fetch; a failed close only logs.
The cached state is not touched in either branch. -/
def handleCloseTradeDone (resp : Except AxiosFailure Dashboard.CloseResponse)
    (s : State) : State × List Effect :=
  match resp with
  | .ok _ => (s, [Effect.requestGetTrades])
  | .error _ => (s, [])

/-- One step of the AutoTrade 5-second ledger poll (AutoTrade.jsx
lines 58-62): the body of fetchTrades issues its GET unconditionally, so a
tick always adds an outstanding request. -/
def ledgerPollStep (n : Nat) : PollEvent → Nat
  | .tick => n + 1
  | .response => n - 1

/-- Outstanding AutoTrade ledger-poll requests after a sequence of events. -/
def ledgerPollRun (events : List PollEvent) (n : Nat) : Nat :=
  events.foldl ledgerPollStep n

/-- In-flight view of the 60-second automation cycle (AutoTrade.jsx
lines 64-73): the interval fires startAutoTrade on every tick while
autoMode holds. -/
structure CycleState where
  scanning : Bool
  inflight : Nat
deriving DecidableEq, Repr

/-- A cycle tick invokes startAutoTrade, whose body sets scanning and
issues POST /run_bot unconditionally (lines 20-22): the scanning flag is
never consulted before issuing, so each tick adds an in-flight request. -/
def cycleTick (c : CycleState) : CycleState :=
  { scanning := true, inflight := c.inflight + 1 }

/-- A cycle response resolves one in-flight request; the finally clause
clears scanning (line 35). -/
def cycleResponse (c : CycleState) : CycleState :=
  { scanning := false, inflight := c.inflight - 1 }

end AutoTrade

/-- Sample aggregate stats for concrete instantiations. -/
def sampleStats : AccountStats :=
  { balance := 10000, total_pnl := 0, total_floating_pnl := 0,
    max_risk_per_trade := 50, total_daily_risk := 100, win_rate := 50,
    total_trades := 3 }

/-- Sample open position with trade id T1. -/
def sampleTrade : ActiveTrade :=
  { trade_id := "T1", symbol := "EURUSD", direction := "BUY",
    entry_price := 11, current_price := 12, stop_loss := 9,
    target_price := 15, lot_size := 1, score := 70, floating_pnl := 1,
    pnl_percentage := 1, risk_amount := 2, risk_percentage := 1 }

/-- Sample scan opportunity. -/
def sampleOpportunity : Opportunity :=
  { symbol := "EURUSD", score := 72, prediction := "UP", confidence := 70,
    current_price := 11 }

/-- Sample automation status replica. -/
def sampleStatus : AutomationStatus :=
  { is_running := false, last_trade_time := none, trade_count := 3,
    scan_interval := 300 }

/-- Sample status replica as reported after a successful start. -/
def sampleRunningStatus : AutomationStatus :=
  { is_running := true, last_trade_time := none, trade_count := 3,
    scan_interval := 300 }

/-- Sample status-bar component state. -/
def sampleStatusBarState : StatusBar.State :=
  { status := sampleStatus, loading := false }

/-- Sample Dashboard component state holding one open position. -/
def sampleDashState : Dashboard.State :=
  { symbol := "EURUSD", data := none, loading := false, isRunning := false,
    activeTrades := [sampleTrade], stats := some sampleStats,
    runningBot := false }

/-- Sample filtered scan response (scenario D of the specification). -/
def sampleFilteredScan : Dashboard.ScanResponse :=
  { status := "filtered", message := "confidence 0.42 below 0.65 threshold",
    sentiment := 0, prediction := "DOWN", confidence := 42 }

/-- Sample AutoTrade component state holding one open position. -/
def sampleAutoState : AutoTrade.State :=
  { autoMode := false, scanning := false, selectedOpportunity := none,
    opportunities := [], lastScan := none, activeTrades := [sampleTrade],
    stats := some sampleStats }

/-- Sample AutoTrade state of a controller that has just transitioned to
Stopped while a run_bot request is still in flight: autoMode is off,
scanning is still set, and no opportunities are cached. -/
def stoppedMidCycleState : AutoTrade.State :=
  { autoMode := false, scanning := true, selectedOpportunity := none,
    opportunities := [], lastScan := none, activeTrades := [],
    stats := none }

theorem length_filter_pnl_partition (l : List HistoryRecord) :
    (l.filter (fun t => decide (t.pnl > 0))).length
      + (l.filter (fun t => decide (t.pnl ≤ 0))).length = l.length := by
  induction l with
  | nil => rfl
  | cons a t ih =>
    by_cases h : a.pnl > 0
    · have h2 : ¬ (a.pnl ≤ 0) := by omega
      simp only [List.filter_cons, decide_eq_true_eq, h, h2, if_true, if_false,
        List.length_cons]
      omega
    · have h2 : a.pnl ≤ 0 := by omega
      simp only [List.filter_cons, decide_eq_true_eq, h, h2, if_true, if_false,
        List.length_cons]
      omega

/-- C6: for a fixed record list, the WIN filter returns exactly the records
with positive pnl, the LOSS filter exactly those with pnl at most zero, the
ALL filter the full list; WIN and LOSS partition the records (their lengths
add up to the whole list), and clicking a filter issues no network
request. -/
theorem claim_C6_history_filter_purity (s : TradeHistory.State) :
    TradeHistory.filteredTrades { s with filter := TradeHistory.Filter.WIN }
      = s.trades.filter (fun t => decide (t.pnl > 0))
  ∧ TradeHistory.filteredTrades { s with filter := TradeHistory.Filter.LOSS }
      = s.trades.filter (fun t => decide (t.pnl ≤ 0))
  ∧ TradeHistory.filteredTrades { s with filter := TradeHistory.Filter.ALL }
      = s.trades
  ∧ (TradeHistory.filteredTrades { s with filter := TradeHistory.Filter.WIN }).length
      + (TradeHistory.filteredTrades { s with filter := TradeHistory.Filter.LOSS }).length
      = s.trades.length
  ∧ ∀ f, (TradeHistory.setFilterClick f s).2 = [] := by
  refine ⟨rfl, rfl, ?_, ?_, fun f => rfl⟩
  · simp [TradeHistory.filteredTrades, TradeHistory.filterPred]
  · have h1 : TradeHistory.filteredTrades { s with filter := TradeHistory.Filter.WIN }
        = s.trades.filter (fun t => decide (t.pnl > 0)) := rfl
    have h2 : TradeHistory.filteredTrades { s with filter := TradeHistory.Filter.LOSS }
        = s.trades.filter (fun t => decide (t.pnl ≤ 0)) := rfl
    rw [h1, h2]
    exact length_filter_pnl_partition s.trades

/-- C10: a successful run_bot cycle with an empty (or absent) opportunity
batch replaces the opportunities list by the empty list while the selected
opportunity keeps its previous value, and with a nonempty batch the
selection becomes the first element of the batch. -/
theorem claim_C10_empty_batch_keeps_selection (s : AutoTrade.State) (now : Nat)
    (o : Opportunity) (rest : List Opportunity) :
    ((AutoTrade.startAutoTradeDone
        (.ok { status := "success", all_opportunities := some [] }) now s).1.opportunities = []
      ∧ (AutoTrade.startAutoTradeDone
        (.ok { status := "success", all_opportunities := some [] }) now s).1.selectedOpportunity
          = s.selectedOpportunity)
  ∧ ((AutoTrade.startAutoTradeDone
        (.ok { status := "success", all_opportunities := none }) now s).1.opportunities = []
      ∧ (AutoTrade.startAutoTradeDone
        (.ok { status := "success", all_opportunities := none }) now s).1.selectedOpportunity
          = s.selectedOpportunity)
  ∧ ((AutoTrade.startAutoTradeDone
        (.ok { status := "success", all_opportunities := some (o :: rest) }) now s).1.opportunities
          = o :: rest
      ∧ (AutoTrade.startAutoTradeDone
        (.ok { status := "success", all_opportunities := some (o :: rest) }) now s).1.selectedOpportunity
          = some o) := by
  refine ⟨⟨rfl, rfl⟩, ⟨rfl, rfl⟩, ⟨rfl, rfl⟩⟩

/-- C9: processing a scan response whose status is filtered leaves the
cached active trades and the cached stats unchanged, and only surfaces the
filter reason. -/
theorem claim_C9_filtered_scan_isolation (s : Dashboard.State)
    (d : Dashboard.ScanResponse) (h : d.status = "filtered") :
    (Dashboard.handleScan (.ok d) s).1.activeTrades = s.activeTrades
  ∧ (Dashboard.handleScan (.ok d) s).1.stats = s.stats
  ∧ (Dashboard.handleScan (.ok d) s).2
      = [Dashboard.Effect.alertFiltered s.symbol d.message] := by
  refine ⟨rfl, rfl, ?_⟩
  simp [Dashboard.handleScan, h]

/-- Witness for C9 at a concrete filtered scan response. -/
theorem claim_C9_filtered_scan_isolation_witness :
    (Dashboard.handleScan (.ok sampleFilteredScan) sampleDashState).1.activeTrades
        = sampleDashState.activeTrades
  ∧ (Dashboard.handleScan (.ok sampleFilteredScan) sampleDashState).1.stats
        = sampleDashState.stats
  ∧ (Dashboard.handleScan (.ok sampleFilteredScan) sampleDashState).2
        = [Dashboard.Effect.alertFiltered sampleDashState.symbol sampleFilteredScan.message] :=
  claim_C9_filtered_scan_isolation sampleDashState sampleFilteredScan rfl

/-- C7: a confirmed reset whose response has success status produces exactly
the trace: reset request, then the server message alerted verbatim, then
the ledger re-fetch, then the fresh scan — so the confirmation precedes
both refreshes. -/
theorem claim_C7_reset_confirms_before_refresh (s : Dashboard.State)
    (r : Dashboard.ResetResponse) (h : r.status = "success") :
    Dashboard.handleReset true (.ok r) s
      = [Dashboard.Effect.requestPostReset,
          Dashboard.Effect.alertResetMessage r.message,
          Dashboard.Effect.requestGetTrades,
          Dashboard.Effect.requestPostScan s.symbol] := by
  simp [Dashboard.handleReset, h]

/-- Witness for C7: scenario C of the specification, with the concrete
message of a balance reset. -/
theorem claim_C7_reset_confirms_before_refresh_witness :
    Dashboard.handleReset true
        (.ok { status := "success", message := "Balance reset to $10,000" })
        sampleDashState
      = [Dashboard.Effect.requestPostReset,
          Dashboard.Effect.alertResetMessage "Balance reset to $10,000",
          Dashboard.Effect.requestGetTrades,
          Dashboard.Effect.requestPostScan sampleDashState.symbol] :=
  claim_C7_reset_confirms_before_refresh sampleDashState
    { status := "success", message := "Balance reset to $10,000" } rfl

/-- C1, evaluation at the failing input: in each of the three periodic
tasks, a second timer tick fired while the first request is still
outstanding issues a second request instead of being skipped, leaving two
requests outstanding at once. -/
theorem claim_C1_second_tick_not_skipped :
    StatusBar.pollRun [PollEvent.tick, PollEvent.tick] 0 = 2
  ∧ Dashboard.ledgerPollRun [PollEvent.tick, PollEvent.tick] 0 = 2
  ∧ AutoTrade.ledgerPollRun [PollEvent.tick, PollEvent.tick] 0 = 2
  ∧ (AutoTrade.cycleTick (AutoTrade.cycleTick { scanning := false, inflight := 0 })).inflight = 2 :=
  ⟨rfl, rfl, rfl, rfl⟩

/-- C2, counterexample: issuing a close for the open trade T1 leaves the
cached activeTrades list unchanged — the trade is still present — so no
optimistic local removal happens at issue time. -/
theorem claim_C2_counterexample :
    (AutoTrade.handleCloseTradeIssue "T1" sampleAutoState).1.activeTrades
        = sampleAutoState.activeTrades
  ∧ sampleTrade ∈ (AutoTrade.handleCloseTradeIssue "T1" sampleAutoState).1.activeTrades
  ∧ sampleTrade.trade_id = "T1" := by
  refine ⟨rfl, ?_, rfl⟩
  show sampleTrade ∈ [sampleTrade]
  exact List.mem_singleton.mpr rfl

/-- C2, amended: closing a trade performs no local removal at all — issuing
the close leaves the cached state unchanged, a successful close only
triggers a ledger re-fetch, a failed close leaves the cache unchanged, and
the client never mutates ActiveTrade fields locally: every cache update is
a wholesale replacement by a fetched ledger (in both the AutoTrade and the
Dashboard component). -/
theorem claim_C2_close_is_refetch_not_removal (tradeId : String)
    (s : AutoTrade.State) (sd : Dashboard.State) (e : AxiosFailure)
    (ok : Dashboard.CloseResponse) (d : TradesResponse) :
    (AutoTrade.handleCloseTradeIssue tradeId s).1 = s
  ∧ (AutoTrade.handleCloseTradeDone (.ok ok) s).1 = s
  ∧ (AutoTrade.handleCloseTradeDone (.ok ok) s).2 = [AutoTrade.Effect.requestGetTrades]
  ∧ (AutoTrade.handleCloseTradeDone (.error e) s).1 = s
  ∧ (AutoTrade.handleCloseTradeDone (.error e) s).2 = []
  ∧ (AutoTrade.fetchTrades (.ok d) s).activeTrades = d.active_trades
  ∧ (AutoTrade.fetchTrades (.error e) s).activeTrades = s.activeTrades
  ∧ (Dashboard.handleCloseTradeIssue tradeId sd).1 = sd
  ∧ (Dashboard.handleCloseTradeDone (.ok ok) sd).1 = sd
  ∧ (Dashboard.handleCloseTradeDone (.error e) sd).1 = sd
  ∧ (Dashboard.fetchTrades (.ok d) sd).activeTrades = d.active_trades :=
  ⟨rfl, rfl, rfl, rfl, rfl, rfl, rfl, rfl, rfl, rfl, rfl⟩

/-- C3, counterexample: with the controller stopped (autoMode off) and a
run_bot request still in flight, the arriving success response mutates the
state after all — the empty opportunities list is replaced by the batch,
the selection and last-scan time are set, and a ledger re-fetch is
triggered. -/
theorem claim_C3_counterexample :
    stoppedMidCycleState.autoMode = false
  ∧ stoppedMidCycleState.opportunities = []
  ∧ (AutoTrade.startAutoTradeDone
        (.ok { status := "success", all_opportunities := some [sampleOpportunity] })
        42 stoppedMidCycleState).1.opportunities = [sampleOpportunity]
  ∧ (AutoTrade.startAutoTradeDone
        (.ok { status := "success", all_opportunities := some [sampleOpportunity] })
        42 stoppedMidCycleState).1.selectedOpportunity = some sampleOpportunity
  ∧ (AutoTrade.startAutoTradeDone
        (.ok { status := "success", all_opportunities := some [sampleOpportunity] })
        42 stoppedMidCycleState).1.lastScan = some 42
  ∧ (AutoTrade.startAutoTradeDone
        (.ok { status := "success", all_opportunities := some [sampleOpportunity] })
        42 stoppedMidCycleState).2 = [AutoTrade.Effect.requestGetTrades] :=
  ⟨rfl, rfl, rfl, rfl, rfl, rfl⟩

/-- C3, amended: transitioning to Stopped only cancels future cycle ticks;
the in-flight run_bot response is still processed exactly as while running,
since the completion handler never reads autoMode: on success it replaces
the opportunities wholesale, moves the selection to the first element when
the batch is nonempty (keeping it otherwise), sets the last-scan time and
requests a ledger refresh. -/
theorem claim_C3_inflight_response_processed (s : AutoTrade.State) (now : Nat)
    (resp : Except AxiosFailure AutoTrade.RunBotResponse) (o : Opportunity)
    (rest : List Opportunity) :
    ((AutoTrade.startAutoTradeDone resp now { s with autoMode := false }).1
        = { (AutoTrade.startAutoTradeDone resp now { s with autoMode := true }).1 with
              autoMode := false }
      ∧ (AutoTrade.startAutoTradeDone resp now { s with autoMode := false }).2
        = (AutoTrade.startAutoTradeDone resp now { s with autoMode := true }).2)
  ∧ ((AutoTrade.startAutoTradeDone
        (.ok { status := "success", all_opportunities := some (o :: rest) }) now
        { s with autoMode := false }).1.opportunities = o :: rest
      ∧ (AutoTrade.startAutoTradeDone
        (.ok { status := "success", all_opportunities := some (o :: rest) }) now
        { s with autoMode := false }).1.selectedOpportunity = some o
      ∧ (AutoTrade.startAutoTradeDone
        (.ok { status := "success", all_opportunities := some (o :: rest) }) now
        { s with autoMode := false }).1.lastScan = some now
      ∧ (AutoTrade.startAutoTradeDone
        (.ok { status := "success", all_opportunities := some (o :: rest) }) now
        { s with autoMode := false }).2 = [AutoTrade.Effect.requestGetTrades])
  ∧ ((AutoTrade.startAutoTradeDone
        (.ok { status := "success", all_opportunities := some [] }) now
        { s with autoMode := false }).1.opportunities = []
      ∧ (AutoTrade.startAutoTradeDone
        (.ok { status := "success", all_opportunities := some [] }) now
        { s with autoMode := false }).1.selectedOpportunity = s.selectedOpportunity) := by
  refine ⟨⟨?_, ?_⟩, ⟨rfl, rfl, rfl, rfl⟩, ⟨rfl, rfl⟩⟩
  · cases resp with
    | error e => rfl
    | ok r =>
      by_cases h : r.status = "success"
      · simp only [AutoTrade.startAutoTradeDone, h, if_true]
        cases ho : r.all_opportunities.getD [] <;> rfl
      · simp only [AutoTrade.startAutoTradeDone, h, if_false]
  · cases resp with
    | error e => rfl
    | ok r =>
      by_cases h : r.status = "success"
      · simp only [AutoTrade.startAutoTradeDone, h, if_true]
      · simp only [AutoTrade.startAutoTradeDone, h, if_false]

/-- C4, counterexample: a start command answered with the unexpected
response status error raises no alert at all — the failure is silently
ignored instead of being reported to the user — and the cached replica is
untouched. -/
theorem claim_C4_counterexample :
    (StatusBar.handleStart (.ok { status := "error" }) (.ok sampleRunningStatus)
        sampleStatusBarState).2 = []
  ∧ (StatusBar.handleStart (.ok { status := "error" }) (.ok sampleRunningStatus)
        sampleStatusBarState).1.status = sampleStatusBarState.status :=
  ⟨rfl, rfl⟩

/-- C4, amended: start() treats both started and already_running as success,
refreshing the status replica by an immediate status fetch (there is no
separate local intent flag; the shown running state is the fetched replica,
retained unchanged if that fetch fails) and reporting success; a transport
failure is reported as a failure and leaves the replica unchanged; any
other response status is silently ignored — no report and no replica
change. -/
theorem claim_C4_idempotent_start (s : StatusBar.State) (st : AutomationStatus)
    (e e2 : AxiosFailure) (r : StatusBar.StartResponse)
    (h1 : r.status ≠ "started") (h2 : r.status ≠ "already_running") :
    StatusBar.handleStart (.ok { status := "started" }) (.ok st) s
      = ({ status := st, loading := false }, [StatusBar.Alert.startSuccess])
  ∧ StatusBar.handleStart (.ok { status := "already_running" }) (.ok st) s
      = ({ status := st, loading := false }, [StatusBar.Alert.startSuccess])
  ∧ StatusBar.handleStart (.ok { status := "started" }) (.error e2) s
      = ({ s with loading := false }, [StatusBar.Alert.startSuccess])
  ∧ StatusBar.handleStart (.error e) (.ok st) s
      = ({ s with loading := false }, [StatusBar.Alert.startFailure e.message])
  ∧ StatusBar.handleStart (.ok r) (.ok st) s
      = ({ s with loading := false }, []) := by
  refine ⟨rfl, rfl, rfl, rfl, ?_⟩
  simp [StatusBar.handleStart, h1, h2]

/-- Witness for C4 at concrete inputs, with the unexpected response status
rejected. -/
theorem claim_C4_idempotent_start_witness :
    (StatusBar.StartResponse.mk "rejected").status ≠ "started"
  ∧ (StatusBar.handleStart (.ok { status := "started" })
        (.ok sampleRunningStatus) sampleStatusBarState
      = ({ status := sampleRunningStatus, loading := false },
          [StatusBar.Alert.startSuccess])
    ∧ StatusBar.handleStart (.ok { status := "already_running" })
        (.ok sampleRunningStatus) sampleStatusBarState
      = ({ status := sampleRunningStatus, loading := false },
          [StatusBar.Alert.startSuccess])
    ∧ StatusBar.handleStart (.ok { status := "started" })
        (.error { message := "Network Error" }) sampleStatusBarState
      = ({ sampleStatusBarState with loading := false },
          [StatusBar.Alert.startSuccess])
    ∧ StatusBar.handleStart (.error { message := "Network Error" })
        (.ok sampleRunningStatus) sampleStatusBarState
      = ({ sampleStatusBarState with loading := false },
          [StatusBar.Alert.startFailure "Network Error"])
    ∧ StatusBar.handleStart (.ok { status := "rejected" })
        (.ok sampleRunningStatus) sampleStatusBarState
      = ({ sampleStatusBarState with loading := false }, [])) :=
  ⟨by decide,
    claim_C4_idempotent_start sampleStatusBarState sampleRunningStatus
      { message := "Network Error" } { message := "Network Error" }
      { status := "rejected" } (by decide) (by decide)⟩

/-- C5, counterexample: a stop command answered with the unexpected
response status error raises no alert at all — it is silently ignored
instead of being reported as a failure. -/
theorem claim_C5_counterexample :
    (StatusBar.handleStop (.ok { status := "error", total_trades := 7 })
        (.ok sampleStatus) sampleStatusBarState).2 = []
  ∧ (StatusBar.handleStop (.ok { status := "error", total_trades := 7 })
        (.ok sampleStatus) sampleStatusBarState).1.status
      = sampleStatusBarState.status :=
  ⟨rfl, rfl⟩

/-- C5, amended: on a stopped response, stop() refreshes the status replica
by an immediate status fetch (there is no separate local intent flag; the
replica is retained unchanged if that fetch fails) and always reports the
total executed trade count of the response; the replica changes in no other
branch; a transport failure is reported as a failure; any other response
status is silently ignored — no report and no replica change. -/
theorem claim_C5_stop_reports_count (s : StatusBar.State) (st : AutomationStatus)
    (e e2 : AxiosFailure) (n : Int) (r : StatusBar.StopResponse)
    (h : r.status ≠ "stopped") :
    StatusBar.handleStop (.ok { status := "stopped", total_trades := n }) (.ok st) s
      = ({ status := st, loading := false }, [StatusBar.Alert.stopSuccess n])
  ∧ StatusBar.handleStop (.ok { status := "stopped", total_trades := n }) (.error e2) s
      = ({ s with loading := false }, [StatusBar.Alert.stopSuccess n])
  ∧ StatusBar.handleStop (.error e) (.ok st) s
      = ({ s with loading := false }, [StatusBar.Alert.stopFailure e.message])
  ∧ StatusBar.handleStop (.ok r) (.ok st) s
      = ({ s with loading := false }, []) := by
  refine ⟨rfl, rfl, rfl, ?_⟩
  simp [StatusBar.handleStop, h]

/-- Witness for C5 at concrete inputs, with the unexpected response status
rejected. -/
theorem claim_C5_stop_reports_count_witness :
    (StatusBar.StopResponse.mk "rejected" 7).status ≠ "stopped"
  ∧ (StatusBar.handleStop (.ok { status := "stopped", total_trades := 7 })
        (.ok sampleStatus) sampleStatusBarState
      = ({ status := sampleStatus, loading := false },
          [StatusBar.Alert.stopSuccess 7])
    ∧ StatusBar.handleStop (.ok { status := "stopped", total_trades := 7 })
        (.error { message := "Network Error" }) sampleStatusBarState
      = ({ sampleStatusBarState with loading := false },
          [StatusBar.Alert.stopSuccess 7])
    ∧ StatusBar.handleStop (.error { message := "Network Error" })
        (.ok sampleStatus) sampleStatusBarState
      = ({ sampleStatusBarState with loading := false },
          [StatusBar.Alert.stopFailure "Network Error"])
    ∧ StatusBar.handleStop (.ok { status := "rejected", total_trades := 7 })
        (.ok sampleStatus) sampleStatusBarState
      = ({ sampleStatusBarState with loading := false }, [])) :=
  ⟨by decide,
    claim_C5_stop_reports_count sampleStatusBarState sampleStatus
      { message := "Network Error" } { message := "Network Error" } 7
      { status := "rejected", total_trades := 7 } (by decide)⟩

theorem head?_dropWhile_false {α : Type} (p : α → Bool) :
    ∀ (l : List α) (c : α), (l.dropWhile p).head? = some c → p c = false := by
  intro l
  induction l with
  | nil => intro c h; simp [List.dropWhile] at h
  | cons a t ih =>
    intro c h
    rw [List.dropWhile_cons] at h
    by_cases hp : p a = true
    · rw [if_pos hp] at h
      exact ih c h
    · rw [if_neg hp] at h
      simp only [List.head?_cons, Option.some_inj] at h
      subst h
      simpa using hp

theorem head?_of_leading {α : Type} {l₁ l₂ : List α} {c : α} (h : l₁ <+: l₂)
    (hc : l₁.head? = some c) : l₂.head? = some c := by
  obtain ⟨t, rfl⟩ := h
  cases l₁ with
  | nil => simp at hc
  | cons a s => simpa using hc

theorem getLast?_of_suffix {α : Type} {l₁ l₂ : List α} {c : α} (h : l₁ <:+ l₂)
    (hc : l₁.getLast? = some c) : l₂.getLast? = some c := by
  obtain ⟨t, rfl⟩ := h
  have hne : l₁ ≠ [] := by
    intro h0
    subst h0
    simp at hc
  rw [List.getLast?_append_of_ne_nil t hne]
  exact hc

theorem dropWhile_eq_self_of_head {α : Type} {p : α → Bool} {l : List α} {c : α}
    (hc : l.head? = some c) (hp : p c = false) : l.dropWhile p = l := by
  cases l with
  | nil => rfl
  | cons a t =>
    simp only [List.head?_cons, Option.some_inj] at hc
    subst hc
    rw [List.dropWhile_cons, if_neg (by simp [hp])]

theorem rdropWhile_eq_self_of_getLast {α : Type} {p : α → Bool} {l : List α} {c : α}
    (hc : l.getLast? = some c) (hp : p c = false) : l.rdropWhile p = l := by
  apply List.rdropWhile_eq_self_iff.mpr
  intro hl
  have h2 := List.getLast?_eq_getLast_of_ne_nil hl
  rw [hc] at h2
  have h3 : l.getLast hl = c := by
    injection h2.symm
  rw [h3, hp]
  simp

theorem trimLeft_eq_dropWhile (l : List Char) :
    Config.trimLeft l = l.dropWhile Config.isJsSpace :=
  rfl

theorem trimRight_eq_rdropWhile (l : List Char) :
    Config.trimRight l = l.rdropWhile Config.isJsSpace :=
  rfl

theorem dropTrailingSlash_leading (l : List Char) :
    Config.dropTrailingSlash l <+: l := by
  unfold Config.dropTrailingSlash
  split
  · exact List.dropLast_prefix l
  · exact List.prefix_refl l

theorem jsTrim_head_not_space (l : List Char) (c : Char)
    (h : (Config.jsTrim l).head? = some c) : Config.isJsSpace c = false := by
  have hpre : Config.jsTrim l <+: Config.trimLeft l := by
    rw [show Config.jsTrim l = (Config.trimLeft l).rdropWhile Config.isJsSpace from rfl]
    exact List.rdropWhile_prefix _ _
  have h1 : (Config.trimLeft l).head? = some c := head?_of_leading hpre h
  rw [trimLeft_eq_dropWhile] at h1
  exact head?_dropWhile_false Config.isJsSpace l c h1

theorem mem_normalised_no_quote {v : List Char} {c : Char}
    (hc : c ∈ Config.dropTrailingSlash (Config.jsTrim (Config.removeQuotes v))) :
    Config.isJsQuote c = false := by
  have h1 : c ∈ Config.jsTrim (Config.removeQuotes v) :=
    (dropTrailingSlash_leading _).sublist.subset hc
  have h2 : c ∈ Config.trimLeft (Config.removeQuotes v) := by
    have hp : Config.jsTrim (Config.removeQuotes v)
        <+: Config.trimLeft (Config.removeQuotes v) := by
      rw [show Config.jsTrim (Config.removeQuotes v)
          = (Config.trimLeft (Config.removeQuotes v)).rdropWhile Config.isJsSpace from rfl]
      exact List.rdropWhile_prefix _ _
    exact hp.sublist.subset h1
  have h3 : c ∈ Config.removeQuotes v := by
    have hs : Config.trimLeft (Config.removeQuotes v) <:+ Config.removeQuotes v := by
      rw [trimLeft_eq_dropWhile]
      exact List.dropWhile_suffix _
    exact hs.sublist.subset h2
  have h4 : c ∈ v.filter (fun c => !(Config.isJsQuote c)) := h3
  have h5 := List.mem_filter.mp h4
  simpa using h5.2

theorem resolveApiUrl_shape (v : List Char) :
    Config.resolveApiUrl v = Config.apiSuffix
  ∨ (Config.dropTrailingSlash (Config.jsTrim (Config.removeQuotes v)) ≠ []
      ∧ Config.apiSuffix <:+ Config.dropTrailingSlash (Config.jsTrim (Config.removeQuotes v))
      ∧ Config.resolveApiUrl v
          = Config.dropTrailingSlash (Config.jsTrim (Config.removeQuotes v)))
  ∨ (Config.dropTrailingSlash (Config.jsTrim (Config.removeQuotes v)) ≠ []
      ∧ Config.resolveApiUrl v
          = Config.dropTrailingSlash (Config.jsTrim (Config.removeQuotes v))
              ++ Config.apiSuffix) := by
  by_cases h0 : Config.dropTrailingSlash (Config.jsTrim (Config.removeQuotes v)) = []
  · left
    simp [Config.resolveApiUrl, h0]
  · by_cases h1 : Config.apiSuffix.isSuffixOf
        (Config.dropTrailingSlash (Config.jsTrim (Config.removeQuotes v))) = true
    · right
      left
      refine ⟨h0, List.isSuffixOf_iff_suffix.mp h1, ?_⟩
      simp [Config.resolveApiUrl, h0, h1]
    · right
      right
      refine ⟨h0, ?_⟩
      have h1f : Config.apiSuffix.isSuffixOf
          (Config.dropTrailingSlash (Config.jsTrim (Config.removeQuotes v))) = false :=
        Bool.eq_false_iff.mpr h1
      have hapine : Config.apiSuffix ≠ [] := by decide
      simp [Config.resolveApiUrl, h0, h1f, List.append_eq_nil, hapine]

/-- C8: for every raw base-URL value, the resolved API_URL ends with the
four-character suffix slash-a-p-i (hence has no trailing slash), contains
no quote character, is its own trim (no surrounding whitespace), and for an
unset or empty value it is exactly the suffix, i.e. the default. -/
theorem claim_C8_api_url_normalisation (v : List Char) :
    Config.apiSuffix <:+ Config.resolveApiUrl v
  ∧ (Config.resolveApiUrl v).getLast? = some 'i'
  ∧ (Config.resolveApiUrl v).getLast? ≠ some '/'
  ∧ (∀ c ∈ Config.resolveApiUrl v, Config.isJsQuote c = false)
  ∧ Config.jsTrim (Config.resolveApiUrl v) = Config.resolveApiUrl v
  ∧ Config.API_URL none = Config.apiSuffix
  ∧ Config.API_URL (some []) = Config.apiSuffix := by
  have hapi : ∀ c ∈ Config.apiSuffix, Config.isJsQuote c = false := by decide
  have hsuffix : Config.apiSuffix <:+ Config.resolveApiUrl v := by
    rcases resolveApiUrl_shape v with h | ⟨h0, hs, hr⟩ | ⟨h0, hr⟩
    · rw [h]
    · rw [hr]
      exact hs
    · rw [hr]
      exact List.suffix_append _ _
  have hlast : (Config.resolveApiUrl v).getLast? = some 'i' :=
    getLast?_of_suffix hsuffix (by decide)
  have hquote : ∀ c ∈ Config.resolveApiUrl v, Config.isJsQuote c = false := by
    intro c hc
    rcases resolveApiUrl_shape v with h | ⟨h0, hs, hr⟩ | ⟨h0, hr⟩
    · exact hapi c (h ▸ hc)
    · rw [hr] at hc
      exact mem_normalised_no_quote hc
    · rw [hr] at hc
      rcases List.mem_append.mp hc with hm | hm
      · exact mem_normalised_no_quote hm
      · exact hapi c hm
  have hhead : ∀ c, (Config.resolveApiUrl v).head? = some c →
      Config.isJsSpace c = false := by
    intro c hc
    rcases resolveApiUrl_shape v with h | ⟨h0, hs, hr⟩ | ⟨h0, hr⟩
    · rw [h] at hc
      simp only [Config.apiSuffix, List.head?_cons, Option.some_inj] at hc
      subst hc
      decide
    · rw [hr] at hc
      exact jsTrim_head_not_space _ c (head?_of_leading (dropTrailingSlash_leading _) hc)
    · rw [hr] at hc
      rw [List.head?_append_of_ne_nil _ h0] at hc
      exact jsTrim_head_not_space _ c (head?_of_leading (dropTrailingSlash_leading _) hc)
  have hne : Config.resolveApiUrl v ≠ [] := by
    intro h
    rw [h] at hlast
    simp at hlast
  have htrimleft : Config.trimLeft (Config.resolveApiUrl v) = Config.resolveApiUrl v := by
    obtain ⟨c, hc⟩ : ∃ c, (Config.resolveApiUrl v).head? = some c := by
      cases hre : Config.resolveApiUrl v with
      | nil => exact absurd hre hne
      | cons a t => exact ⟨a, rfl⟩
    rw [trimLeft_eq_dropWhile]
    exact dropWhile_eq_self_of_head hc (hhead c hc)
  have htrimright : Config.trimRight (Config.resolveApiUrl v) = Config.resolveApiUrl v := by
    rw [trimRight_eq_rdropWhile]
    exact rdropWhile_eq_self_of_getLast hlast (by decide)
  have htrim : Config.jsTrim (Config.resolveApiUrl v) = Config.resolveApiUrl v := by
    unfold Config.jsTrim
    rw [htrimleft, htrimright]
  refine ⟨hsuffix, hlast, ?_, hquote, htrim, rfl, rfl⟩
  rw [hlast]
  decide

/-- Witness for C8 at a concrete raw value carrying surrounding spaces,
stray double quotes and a trailing slash: the resolved URL is the cleaned
value with the suffix appended, and the suffix property produced by the
normalisation theorem holds there. -/
theorem claim_C8_api_url_normalisation_witness :
    Config.resolveApiUrl (" \"https://backend.onrender.com/\" ".toList)
        = "https://backend.onrender.com/api".toList
  ∧ Config.apiSuffix <:+
      Config.resolveApiUrl (" \"https://backend.onrender.com/\" ".toList) :=
  ⟨by decide,
    (claim_C8_api_url_normalisation (" \"https://backend.onrender.com/\" ".toList)).1⟩

end ForexBot
